import Mathlib

/-!
Verification of the XAM info shims of `src/xenia/kernel/xam/xam_info.cc`
(xenia-canary), shallowly embedded in Lean.

Machine integers are modelled as `Nat`; the shims under study perform no
arithmetic that can overflow a 32-bit value in the ranges the theorems
quantify over, and comparisons/division translate directly.  `assert_true`
and `assert_always` are modelled as no-ops (release-build semantics):
they do not alter control flow in the source.
-/

namespace XamInfo

/-- Error code `X_ERROR_SUCCESS`.  Modelled from the spec: the fixed
error-code enumeration of spec section 6 (`xbox.h` is not under `src/`);
numeric values are the published Win32 ABI constants the spec requires. -/
def X_ERROR_SUCCESS : Nat := 0

/-- Error code `X_ERROR_INVALID_HANDLE` (Win32 value 0x6).  Modelled from
the spec, see `X_ERROR_SUCCESS`. -/
def X_ERROR_INVALID_HANDLE : Nat := 0x6

/-- Error code `X_ERROR_NO_MORE_FILES` (Win32 value 0x12).  Modelled from
the spec, see `X_ERROR_SUCCESS`. -/
def X_ERROR_NO_MORE_FILES : Nat := 0x12

/-- Error code `X_ERROR_INVALID_PARAMETER` (Win32 value 0x57).  Modelled
from the spec, see `X_ERROR_SUCCESS`. -/
def X_ERROR_INVALID_PARAMETER : Nat := 0x57

/-- Error code `X_ERROR_INSUFFICIENT_BUFFER` (Win32 value 0x7A).  Modelled
from the spec, see `X_ERROR_SUCCESS`. -/
def X_ERROR_INSUFFICIENT_BUFFER : Nat := 0x7A

/-- Error code `X_ERROR_IO_PENDING` (Win32 value 0x3E5).  Modelled from
the spec, see `X_ERROR_SUCCESS`. -/
def X_ERROR_IO_PENDING : Nat := 0x3E5

/-- Error code `X_ERROR_NOT_FOUND` (Win32 value 0x490).  Modelled from
the spec, see `X_ERROR_SUCCESS`. -/
def X_ERROR_NOT_FOUND : Nat := 0x490

/-- Error code `X_ERROR_FUNCTION_FAILED` (Win32 value 0x65B).  Modelled
from the spec, see `X_ERROR_SUCCESS`. -/
def X_ERROR_FUNCTION_FAILED : Nat := 0x65B

/-- Modelled from the spec: the platform-style hresult wrapping of a Win32
error code used for an overlapped request's `extended_status`
(`X_HRESULT_FROM_WIN32` of `xbox.h`, which is not under `src/`): a zero
(success) code is passed through, a nonzero code keeps its low 16 bits and
gains the Win32 facility and severity bits `0x8007` in the high half. -/
def X_HRESULT_FROM_WIN32 (x : Nat) : Nat :=
  if x = 0 then x else x % 0x10000 + 0x80070000

/-- Modelled from the spec (section 3, "Enumerator"): a kernel object with
attributes `item_size` (bytes per item), `items_per_enumerate` (legacy
per-call item cap, used only by the compatibility quirk), `item_count`
(declared total items available) and `current_item` (the cursor); the
private item-production capability is modelled by `items`, the finite
sequence of serialized items the producer can still deliver, indexed by
the cursor (`xenumerator.h`/`.cc` are not under `src/`).  `items` is kept
distinct from the declared `item_count` because production signalling
exhaustion is an independent event in the protocol (spec section 4.2
step 5 allows immediate exhaustion with zero items written). -/
structure XEnumerator where
  item_size : Nat
  items_per_enumerate : Nat
  item_count : Nat
  current_item : Nat
  items : List (List Nat)
deriving DecidableEq

/-- Modelled from the spec (section 3): `WriteItem` serializes the item at
the cursor into the destination and advances the cursor by one, or reports
exhaustion (`none`) when the producer has nothing left. -/
def XEnumerator.WriteItem (e : XEnumerator) : Option (List Nat × XEnumerator) :=
  match e.items[e.current_item]? with
  | some it => some (it, { e with current_item := e.current_item + 1 })
  | none => none

/-- The effective byte length used by `XamEnumerate`
(`xam_info.cc:357-371`): the caller-supplied `buffer_length` is replaced by
`item_count * item_size` exactly when it equals `items_per_enumerate`. -/
def actualBufferLength (e : XEnumerator) (buffer_length : Nat) : Nat :=
  if buffer_length = e.items_per_enumerate then e.item_count * e.item_size
  else buffer_length

/-- The item-production loop of `XamEnumerate` (`xam_info.cc:383-389`):
up to `max_items` calls to `WriteItem`, collecting the items written to the
guest buffer (in slot order) and threading the enumerator state. -/
def enumLoop : Nat → XEnumerator → List (List Nat) × XEnumerator
  | 0, e => ([], e)
  | max_items + 1, e =>
    match e.WriteItem with
    | none => ([], e)
    | some (it, e2) =>
      let r := enumLoop max_items e2
      (it :: r.1, r.2)

/-- The status computation and item loop of `XamEnumerate`
(`xam_info.cc:373-391`), given the effective byte length `len`: returns
`(result, items written to the buffer, final enumerator state)`. -/
def enumerateCore (e : XEnumerator) (len : Nat) : Nat × List (List Nat) × XEnumerator :=
  if len < e.item_size then (X_ERROR_INSUFFICIENT_BUFFER, [], e)
  else if e.item_count ≤ e.current_item then (X_ERROR_NO_MORE_FILES, [], e)
  else
    let r := enumLoop (len / e.item_size) e
    (X_ERROR_SUCCESS, r.1, r.2)

/-- Observable outcome of one `XamEnumerate` call: the value returned to
the guest, the post-call enumerator state (`none` when the handle lookup
failed), the items written to the guest buffer, the value stored through
`items_returned` (when that pointer was supplied), and the
`(primary_status, extended_status, result_value)` triple written to the
overlapped request (when one was completed).  The triple records the
arguments of `CompleteOverlappedImmediateEx`, whose contract is modelled
from the spec (section 4.3: `Complete` writes the three fields of the
request verbatim as one update; `kernel_state.cc` is not under `src/`). -/
structure EnumResult where
  ret : Nat
  enumerator : Option XEnumerator
  written : List (List Nat)
  items_returned : Option Nat
  overlapped : Option (Nat × Nat × Nat)
deriving DecidableEq

/-- The result-delivery tail of `XamEnumerate` (`xam_info.cc:393-408`):
the synchronous path stores the item count and returns the status, the
asynchronous path completes the overlapped request and returns
`X_ERROR_IO_PENDING`, and with neither channel the call returns
`X_ERROR_INVALID_PARAMETER` (the `assert_always` is a no-op). -/
def deliverResult (result : Nat) (written : List (List Nat)) (e2 : XEnumerator)
    (has_items_returned has_overlapped : Bool) : EnumResult :=
  if has_items_returned then
    { ret := result, enumerator := some e2, written := written,
      items_returned := some (if result = X_ERROR_SUCCESS then written.length else 0),
      overlapped := none }
  else if has_overlapped then
    { ret := X_ERROR_IO_PENDING, enumerator := some e2, written := written,
      items_returned := none,
      overlapped := some
        (if result = X_ERROR_SUCCESS then X_ERROR_SUCCESS else X_ERROR_FUNCTION_FAILED,
         X_HRESULT_FROM_WIN32 result,
         if result = X_ERROR_SUCCESS then written.length else 0) }
  else
    { ret := X_ERROR_INVALID_PARAMETER, enumerator := some e2, written := written,
      items_returned := none, overlapped := none }

/-- `XamEnumerate` (`xam_info.cc:341-409`).  `eo` is the outcome of the
handle lookup in the kernel object table (`none` on lookup failure);
`has_items_returned` / `has_overlapped` record whether the corresponding
guest pointers are non-null.  `flags` is only checked by a debug assertion
in the source and does not affect behaviour. -/
def xamEnumerate (eo : Option XEnumerator) (flags buffer_length : Nat)
    (has_items_returned has_overlapped : Bool) : EnumResult :=
  match eo with
  | none =>
    if has_overlapped then
      { ret := X_ERROR_IO_PENDING, enumerator := none, written := [],
        items_returned := none,
        overlapped := some (X_ERROR_INVALID_HANDLE, X_ERROR_INVALID_HANDLE, 0) }
    else
      { ret := X_ERROR_INVALID_HANDLE, enumerator := none, written := [],
        items_returned := none, overlapped := none }
  | some e =>
    deliverResult (enumerateCore e (actualBufferLength e buffer_length)).1
      (enumerateCore e (actualBufferLength e buffer_length)).2.1
      (enumerateCore e (actualBufferLength e buffer_length)).2.2
      has_items_returned has_overlapped

/-- Byte swap of one 16-bit unit, as performed per element by
`xe::copy_and_swap<char16_t>`: the low and high bytes are exchanged. -/
def swap16 (x : Nat) : Nat := x % 0x100 * 0x100 + x / 0x100 % 0x100

/-- The write trace of `keXamBuildResourceLocator` into the destination
buffer (`xam_info.cc:124-126`), as `(unit index, value)` pairs in program
order: `copy_count = min(buffer_count, path.size())` byte-swapped units of
the formatted locator `path` are copied to indices `0 .. copy_count - 1`,
then a zero terminator is stored at index `copy_count` unconditionally. -/
def keXamBuildResourceLocator_writes (path : List Nat) (buffer_count : Nat) :
    List (Nat × Nat) :=
  ((path.take (min buffer_count path.length)).map swap16).enum
    ++ [(min buffer_count path.length, 0)]

/-- The element count handed to `xe::copy_and_swap` by
`XamFormatDateString` (`xam_info.cc:84-85`): `copy_length` is
`min(output_count, str.size()) * 2` — a byte count — but `copy_and_swap`
takes a count of `char16_t` elements, so this many units are copied. -/
def xamFormatDateString_copy_units (output_count source_length : Nat) : Nat :=
  min output_count source_length * 2

/-- The element count handed to `xe::copy_and_swap` by
`XamFormatTimeString` (`xam_info.cc:101-102`):
`copy_count = min(output_count, str.size())` elements. -/
def xamFormatTimeString_copy_units (output_count source_length : Nat) : Nat :=
  min output_count source_length

/-- `XamAlloc` (`xam_info.cc:321-331`), parameterized by the system heap
allocator (`SystemHeapAlloc`, not under `src/`; modelled from the spec,
section 4.1: returns a guest address, with the sentinel zero address on
exhaustion).  Returns `(status returned to the guest, value stored through
out_ptr)`; the `assert_true(unk == 0)` is a no-op. -/
def xamAlloc (systemHeapAlloc : Nat → Nat) (unk size : Nat) : Nat × Nat :=
  (X_ERROR_SUCCESS, systemHeapAlloc size)

/-- Modelled from the spec (section 4.1): a system heap with no space
left; every allocation yields the sentinel zero address. -/
def exhaustedHeapAlloc : Nat → Nat := fun _ => 0

/-- The launch-data portion of the XAM module's loader data
(`xam_module.h` is not under `src/`; fields modelled from the spec,
section 3, "LoaderData"): the launch data bytes and the presence flag. -/
structure LoaderData where
  launch_data : List Nat
  launch_data_present : Bool
deriving DecidableEq

/-- Modelled from the spec (sections 3 and 8): loader data before any
`SetLaunchData` call — no launch data is present. -/
def LoaderData.initial : LoaderData :=
  { launch_data := [], launch_data_present := false }

/-- `XamLoaderSetLaunchData` (`xam_info.cc:244-252`): sets the presence
flag to `size ? true : false`, resizes the stored byte vector to `size`
and copies the caller's bytes into it; returns 0.  Result is
`(new loader data, value returned to the guest)`. -/
def xamLoaderSetLaunchData (st : LoaderData) (data : List Nat) : LoaderData × Nat :=
  ({ launch_data := data,
     launch_data_present := if data.length = 0 then false else true }, 0)

/-- `XamLoaderGetLaunchDataSize` (`xam_info.cc:254-269`):
`X_ERROR_INVALID_PARAMETER` when the size pointer is null; otherwise
stores 0 and returns `X_ERROR_NOT_FOUND` when no launch data is present,
else stores the stored size and returns `X_ERROR_SUCCESS`.  Result is
`(return value, value stored through size_ptr)`. -/
def xamLoaderGetLaunchDataSize (has_size_ptr : Bool) (st : LoaderData) :
    Nat × Option Nat :=
  if !has_size_ptr then (X_ERROR_INVALID_PARAMETER, none)
  else if !st.launch_data_present then (X_ERROR_NOT_FOUND, some 0)
  else (X_ERROR_SUCCESS, some st.launch_data.length)

/-- `XamLoaderGetLaunchData` (`xam_info.cc:271-284`): `X_ERROR_NOT_FOUND`
when no launch data is present; otherwise copies
`min(stored size, buffer_size)` bytes into the guest buffer and returns
`X_ERROR_SUCCESS`.  Result is `(return value, bytes copied)`. -/
def xamLoaderGetLaunchData (st : LoaderData) (buffer_size : Nat) :
    Nat × List Nat :=
  if !st.launch_data_present then (X_ERROR_NOT_FOUND, [])
  else (X_ERROR_SUCCESS, st.launch_data.take (min st.launch_data.length buffer_size))

/-- Fixture enumerator for the compatibility-quirk case: the declared
per-enumerate cap (8) is what a broken caller passes as a byte length. -/
def eC1 : XEnumerator :=
  { item_size := 4, items_per_enumerate := 8, item_count := 3, current_item := 0,
    items := [[1, 1, 1, 1], [2, 2, 2, 2], [3, 3, 3, 3]] }

/-- Fixture enumerator with two 4-byte items and a per-enumerate cap that
no buffer length in the tests collides with. -/
def eC3 : XEnumerator :=
  { item_size := 4, items_per_enumerate := 99, item_count := 2, current_item := 0,
    items := [[1, 2, 3, 4], [5, 6, 7, 8]] }

/-- Fixture enumerator with a single 4-byte item. -/
def eC8 : XEnumerator :=
  { item_size := 4, items_per_enumerate := 99, item_count := 1, current_item := 0,
    items := [[1, 2, 3, 4]] }

/-- Fixture enumerator whose per-enumerate cap (2) is smaller than its
item size (4), so a 2-byte buffer length collides with the cap. -/
def eC9 : XEnumerator :=
  { item_size := 4, items_per_enumerate := 2, item_count := 1, current_item := 0,
    items := [[9, 9, 9, 9]] }

/-! ## Helper lemmas -/

/-- The item loop writes the next `n` items the producer can deliver
(fewer when production is exhausted first) and advances the cursor by
exactly one per item written. -/
theorem enumLoop_spec (n : Nat) (e : XEnumerator) :
    enumLoop n e = ((e.items.drop e.current_item).take n,
      { e with current_item :=
          e.current_item + ((e.items.drop e.current_item).take n).length }) := by
  induction n generalizing e with
  | zero =>
    simp [enumLoop]
  | succ n ih =>
    unfold enumLoop
    unfold XEnumerator.WriteItem
    cases hg : e.items[e.current_item]? with
    | none =>
      have hle : e.items.length ≤ e.current_item := List.getElem?_eq_none_iff.mp hg
      simp [List.drop_eq_nil_of_le hle]
    | some it =>
      have hlt : e.current_item < e.items.length := (List.getElem?_eq_some_iff.mp hg).1
      have hv : e.items[e.current_item] = it := (List.getElem?_eq_some_iff.mp hg).2
      have hdrop : e.items.drop e.current_item = it :: e.items.drop (e.current_item + 1) := by
        rw [List.drop_eq_getElem_cons hlt, hv]
      dsimp only
      rw [ih]
      simp only [hdrop, List.take_succ_cons, List.length_cons, Prod.mk.injEq]
      refine ⟨trivial, ?_⟩
      congr 1
      omega

/-- Insufficient-buffer case of the status computation. -/
theorem enumerateCore_insufficient (e : XEnumerator) (len : Nat)
    (h : len < e.item_size) :
    enumerateCore e len = (X_ERROR_INSUFFICIENT_BUFFER, [], e) := by
  unfold enumerateCore
  rw [if_pos h]

/-- Exhausted-cursor case of the status computation. -/
theorem enumerateCore_no_more (e : XEnumerator) (len : Nat)
    (h1 : e.item_size ≤ len) (h2 : e.item_count ≤ e.current_item) :
    enumerateCore e len = (X_ERROR_NO_MORE_FILES, [], e) := by
  unfold enumerateCore
  rw [if_neg (Nat.not_lt.mpr h1), if_pos h2]

/-- Success case of the status computation: up to `len / item_size` items
are produced and the cursor advances by the number actually written. -/
theorem enumerateCore_success (e : XEnumerator) (len : Nat)
    (h1 : e.item_size ≤ len) (h2 : e.current_item < e.item_count) :
    enumerateCore e len =
      (X_ERROR_SUCCESS, (e.items.drop e.current_item).take (len / e.item_size),
        { e with current_item := e.current_item +
            ((e.items.drop e.current_item).take (len / e.item_size)).length }) := by
  unfold enumerateCore
  rw [if_neg (Nat.not_lt.mpr h1), if_neg (Nat.not_le.mpr h2)]
  simp only [enumLoop_spec]

/-! ## Claim theorems -/

/-- C1: an `XamEnumerate` call on a valid enumerator whose
`buffer_length` equals `items_per_enumerate` recomputes the effective
byte length as `item_count * item_size`, so its whole observable outcome
(status, returned item count, bytes written, final state) equals that of
the same call with `buffer_length = item_count * item_size`; and the
recomputation triggers only on exact equality — for any other
`buffer_length` the effective length is the caller's value unchanged. -/
theorem xamEnumerate_quirk_equiv (e : XEnumerator) (flags buffer_length : Nat)
    (hir hov : Bool) :
    (buffer_length = e.items_per_enumerate →
      xamEnumerate (some e) flags buffer_length hir hov
        = xamEnumerate (some e) flags (e.item_count * e.item_size) hir hov)
  ∧ (buffer_length ≠ e.items_per_enumerate →
      actualBufferLength e buffer_length = buffer_length) := by
  constructor
  · intro h
    have h1 : actualBufferLength e buffer_length = e.item_count * e.item_size := by
      unfold actualBufferLength
      rw [if_pos h]
    have h2 : actualBufferLength e (e.item_count * e.item_size)
        = e.item_count * e.item_size := by
      unfold actualBufferLength
      split <;> rfl
    simp only [xamEnumerate, h1, h2]
  · intro h
    unfold actualBufferLength
    rw [if_neg h]

/-- C1 witness: the quirk equivalence evaluated on the fixture `eC1`
(buffer length 8 equals its `items_per_enumerate`). -/
theorem xamEnumerate_quirk_equiv_witness :
    xamEnumerate (some eC1) 0 8 true false
      = xamEnumerate (some eC1) 0 (eC1.item_count * eC1.item_size) true false :=
  (xamEnumerate_quirk_equiv eC1 0 8 true false).1 rfl

/-- C2 counterexample: on handle-lookup failure with an overlapped
supplied, the overlapped request is completed with
`primary_status = X_ERROR_INVALID_HANDLE` — not `X_ERROR_FUNCTION_FAILED`
as claimed — and `extended_status` is the raw `X_ERROR_INVALID_HANDLE`,
not its hresult-wrapped form. -/
theorem xamEnumerate_lookup_failure_cex :
    (xamEnumerate none 0 0 false true).overlapped
        = some (X_ERROR_INVALID_HANDLE, X_ERROR_INVALID_HANDLE, 0)
  ∧ X_ERROR_INVALID_HANDLE ≠ X_ERROR_FUNCTION_FAILED
  ∧ X_ERROR_INVALID_HANDLE ≠ X_HRESULT_FROM_WIN32 X_ERROR_INVALID_HANDLE := by
  decide

/-- C2 (amended): on handle-lookup failure, when no overlapped is
supplied the call returns `X_ERROR_INVALID_HANDLE` directly; when an
overlapped is supplied it is completed with
`{X_ERROR_INVALID_HANDLE, X_ERROR_INVALID_HANDLE, 0}` (primary and
extended status both the raw invalid-handle code) and the call returns
`X_ERROR_IO_PENDING`. -/
theorem xamEnumerate_lookup_failure (flags buffer_length : Nat) (hir hov : Bool) :
    xamEnumerate none flags buffer_length hir hov =
      if hov then
        { ret := X_ERROR_IO_PENDING, enumerator := none, written := [],
          items_returned := none,
          overlapped := some (X_ERROR_INVALID_HANDLE, X_ERROR_INVALID_HANDLE, 0) }
      else
        { ret := X_ERROR_INVALID_HANDLE, enumerator := none, written := [],
          items_returned := none, overlapped := none } := rfl

/-- C5: on the asynchronous path with a valid enumerator, the overlapped
triple is `(SUCCESS or FUNCTION_FAILED, hresult-wrapped true status,
item count on success else 0)` and the call returns `X_ERROR_IO_PENDING`
regardless of the enumeration status. -/
theorem xamEnumerate_async_delivery (e : XEnumerator) (flags buffer_length : Nat) :
    xamEnumerate (some e) flags buffer_length false true =
      { ret := X_ERROR_IO_PENDING,
        enumerator := some (enumerateCore e (actualBufferLength e buffer_length)).2.2,
        written := (enumerateCore e (actualBufferLength e buffer_length)).2.1,
        items_returned := none,
        overlapped := some
          ((if (enumerateCore e (actualBufferLength e buffer_length)).1 = X_ERROR_SUCCESS
              then X_ERROR_SUCCESS else X_ERROR_FUNCTION_FAILED),
           X_HRESULT_FROM_WIN32 (enumerateCore e (actualBufferLength e buffer_length)).1,
           (if (enumerateCore e (actualBufferLength e buffer_length)).1 = X_ERROR_SUCCESS
              then (enumerateCore e (actualBufferLength e buffer_length)).2.1.length
              else 0)) } := rfl

/-- C10: with a valid enumerator but neither `items_returned` nor an
overlapped supplied, the enumeration still runs in full — the bytes
written and the final enumerator state equal those of the synchronous
path — and the call then returns `X_ERROR_INVALID_PARAMETER`, delivering
the item count through neither channel. -/
theorem xamEnumerate_no_channel (e : XEnumerator) (flags buffer_length : Nat) :
    (xamEnumerate (some e) flags buffer_length false false).ret
        = X_ERROR_INVALID_PARAMETER
  ∧ (xamEnumerate (some e) flags buffer_length false false).written
      = (xamEnumerate (some e) flags buffer_length true false).written
  ∧ (xamEnumerate (some e) flags buffer_length false false).enumerator
      = (xamEnumerate (some e) flags buffer_length true false).enumerator
  ∧ (xamEnumerate (some e) flags buffer_length false false).items_returned = none
  ∧ (xamEnumerate (some e) flags buffer_length false false).overlapped = none :=
  ⟨rfl, rfl, rfl, rfl, rfl⟩

/-- C3: on a valid enumerator (shown on the synchronous path, where the
status is the returned value), the status is `X_ERROR_INSUFFICIENT_BUFFER`
when the effective length is below `item_size`, else
`X_ERROR_NO_MORE_FILES` when the cursor has reached `item_count`, else
`X_ERROR_SUCCESS` with the next `effective_length / item_size` producible
items written to successive buffer slots (fewer when the producer is
exhausted first — the status is `X_ERROR_SUCCESS` even when zero items
were written), the cursor advanced by exactly one per item written, and
the written count never exceeding `max_items`; a short write happens only
when production is exhausted. -/
theorem xamEnumerate_status_cases (e : XEnumerator) (flags buffer_length : Nat) :
    (actualBufferLength e buffer_length < e.item_size →
      xamEnumerate (some e) flags buffer_length true false =
        { ret := X_ERROR_INSUFFICIENT_BUFFER, enumerator := some e, written := [],
          items_returned := some 0, overlapped := none })
  ∧ (e.item_size ≤ actualBufferLength e buffer_length →
      e.item_count ≤ e.current_item →
      xamEnumerate (some e) flags buffer_length true false =
        { ret := X_ERROR_NO_MORE_FILES, enumerator := some e, written := [],
          items_returned := some 0, overlapped := none })
  ∧ (e.item_size ≤ actualBufferLength e buffer_length →
      e.current_item < e.item_count →
      xamEnumerate (some e) flags buffer_length true false =
        { ret := X_ERROR_SUCCESS,
          enumerator := some { e with current_item := e.current_item +
            ((e.items.drop e.current_item).take
              (actualBufferLength e buffer_length / e.item_size)).length },
          written := (e.items.drop e.current_item).take
            (actualBufferLength e buffer_length / e.item_size),
          items_returned := some ((e.items.drop e.current_item).take
            (actualBufferLength e buffer_length / e.item_size)).length,
          overlapped := none }
      ∧ ((e.items.drop e.current_item).take
            (actualBufferLength e buffer_length / e.item_size)).length
          ≤ actualBufferLength e buffer_length / e.item_size
      ∧ (((e.items.drop e.current_item).take
            (actualBufferLength e buffer_length / e.item_size)).length
            < actualBufferLength e buffer_length / e.item_size →
          e.items.length ≤ e.current_item +
            ((e.items.drop e.current_item).take
              (actualBufferLength e buffer_length / e.item_size)).length)) := by
  refine ⟨?_, ?_, ?_⟩
  · intro h
    have hc := enumerateCore_insufficient e (actualBufferLength e buffer_length) h
    simp [xamEnumerate, hc, deliverResult]
  · intro h1 h2
    have hc := enumerateCore_no_more e (actualBufferLength e buffer_length) h1 h2
    simp [xamEnumerate, hc, deliverResult]
  · intro h1 h2
    have hc := enumerateCore_success e (actualBufferLength e buffer_length) h1 h2
    refine ⟨?_, ?_, ?_⟩
    · simp [xamEnumerate, hc, deliverResult]
    · rw [List.length_take, List.length_drop]
      exact Nat.min_le_left _ _
    · intro hshort
      rw [List.length_take, List.length_drop] at hshort ⊢
      omega

/-- C3 witness: the success case evaluated on `eC3` with buffer length 9
(effective length 9, `max_items = 2`): both items are written, the
cursor advances to 2 and the returned value is `X_ERROR_SUCCESS`. -/
theorem xamEnumerate_status_cases_witness :
    eC3.item_size ≤ actualBufferLength eC3 9
  ∧ eC3.current_item < eC3.item_count
  ∧ xamEnumerate (some eC3) 0 9 true false =
      { ret := X_ERROR_SUCCESS,
        enumerator := some { eC3 with current_item := eC3.current_item +
          ((eC3.items.drop eC3.current_item).take
            (actualBufferLength eC3 9 / eC3.item_size)).length },
        written := (eC3.items.drop eC3.current_item).take
          (actualBufferLength eC3 9 / eC3.item_size),
        items_returned := some ((eC3.items.drop eC3.current_item).take
          (actualBufferLength eC3 9 / eC3.item_size)).length,
        overlapped := none } :=
  ⟨by decide, by decide,
    ((xamEnumerate_status_cases eC3 0 9).2.2 (by decide) (by decide)).1⟩

/-- C8 counterexample: a call with `flags = 1` on the fixture `eC8` is not
rejected — it returns `X_ERROR_SUCCESS`, writes an item into the guest
buffer and advances the cursor, so no caller-input error is reported and
guest-visible state is mutated. -/
theorem xamEnumerate_flags_cex :
    (xamEnumerate (some eC8) 1 4 true false).ret = X_ERROR_SUCCESS
  ∧ (xamEnumerate (some eC8) 1 4 true false).written ≠ []
  ∧ (xamEnumerate (some eC8) 1 4 true false).enumerator ≠ some eC8 := by
  decide

/-- C8 (amended): `XamEnumerate` does not validate `flags` — apart from a
debug-only assertion, a call with any `flags` value behaves identically
to the same call with `flags = 0`; no error code is reported for a
non-zero `flags`. -/
theorem xamEnumerate_flags_ignored (eo : Option XEnumerator)
    (flags buffer_length : Nat) (hir hov : Bool) :
    xamEnumerate eo flags buffer_length hir hov
      = xamEnumerate eo 0 buffer_length hir hov := by
  cases eo <;> rfl

/-- C9 counterexample: on the fixture `eC9` (item size 4,
`items_per_enumerate = 2`, one item available) a call with buffer length
2 — smaller than the item size, on a valid non-exhausted enumerator —
returns `X_ERROR_SUCCESS` and advances the cursor, because 2 equals
`items_per_enumerate` and the compatibility quirk replaces the length. -/
theorem xamEnumerate_small_buffer_cex :
    2 < eC9.item_size
  ∧ eC9.current_item < eC9.item_count
  ∧ (xamEnumerate (some eC9) 0 2 true false).ret = X_ERROR_SUCCESS
  ∧ (xamEnumerate (some eC9) 0 2 true false).enumerator
      = some { eC9 with current_item := 1 }
  ∧ X_ERROR_SUCCESS ≠ X_ERROR_INSUFFICIENT_BUFFER := by
  decide

/-- C9 (amended): a call with `buffer_length < item_size` on a valid,
non-exhausted enumerator whose `buffer_length` also differs from
`items_per_enumerate` (so the compatibility quirk does not rewrite the
length) returns `X_ERROR_INSUFFICIENT_BUFFER`, writes no item and leaves
the cursor unchanged. -/
theorem xamEnumerate_small_buffer (e : XEnumerator) (flags buffer_length : Nat)
    (hlt : buffer_length < e.item_size)
    (hne : buffer_length ≠ e.items_per_enumerate)
    (hcur : e.current_item < e.item_count) :
    xamEnumerate (some e) flags buffer_length true false =
      { ret := X_ERROR_INSUFFICIENT_BUFFER, enumerator := some e, written := [],
        items_returned := some 0, overlapped := none } := by
  have ha : actualBufferLength e buffer_length = buffer_length := by
    unfold actualBufferLength
    rw [if_neg hne]
  have hc := enumerateCore_insufficient e (actualBufferLength e buffer_length)
    (by rw [ha]; exact hlt)
  simp [xamEnumerate, hc, deliverResult]

/-- C9 witness: the amended statement evaluated on `eC9` with buffer
length 1 (below the item size 4 and different from the cap 2). -/
theorem xamEnumerate_small_buffer_witness :
    xamEnumerate (some eC9) 0 1 true false =
      { ret := X_ERROR_INSUFFICIENT_BUFFER, enumerator := some eC9, written := [],
        items_returned := some 0, overlapped := none } :=
  xamEnumerate_small_buffer eC9 0 1 (by decide) (by decide) (by decide)

/-- C6 counterexample: under system-heap exhaustion (`SystemHeapAlloc`
yields the sentinel zero address) `XamAlloc` stores the zero address
through `out_ptr` yet returns `X_ERROR_SUCCESS` — the very combination
the claim says never occurs. -/
theorem xamAlloc_exhaustion_cex :
    (xamAlloc exhaustedHeapAlloc 0 16).1 = X_ERROR_SUCCESS
  ∧ (xamAlloc exhaustedHeapAlloc 0 16).2 = 0 := by
  decide

/-- C6 (amended): under system-heap exhaustion `XamAlloc` stores the
zero-address sentinel through `out_ptr` but still returns
`X_ERROR_SUCCESS`; the allocation outcome is never reflected in the
returned error code. -/
theorem xamAlloc_always_success (systemHeapAlloc : Nat → Nat) (unk size : Nat)
    (h : systemHeapAlloc size = 0) :
    xamAlloc systemHeapAlloc unk size = (X_ERROR_SUCCESS, 0) := by
  unfold xamAlloc
  rw [h]

/-- C6 witness: the amended statement evaluated on the exhausted heap. -/
theorem xamAlloc_always_success_witness :
    xamAlloc exhaustedHeapAlloc 0 16 = (X_ERROR_SUCCESS, 0) :=
  xamAlloc_always_success exhaustedHeapAlloc 0 16 rfl

/-- C7 counterexample: after `XamLoaderSetLaunchData` of the empty byte
sequence, both `XamLoaderGetLaunchDataSize` and `XamLoaderGetLaunchData`
return `X_ERROR_NOT_FOUND` — not a success delivering length 0 — because
the presence flag is set to `size ? true : false`. -/
theorem launch_data_empty_cex :
    (xamLoaderGetLaunchDataSize true
        (xamLoaderSetLaunchData LoaderData.initial []).1).1 = X_ERROR_NOT_FOUND
  ∧ (xamLoaderGetLaunchData
        (xamLoaderSetLaunchData LoaderData.initial []).1 4).1 = X_ERROR_NOT_FOUND
  ∧ X_ERROR_NOT_FOUND ≠ X_ERROR_SUCCESS := by
  decide

/-- C7 (amended): for every non-empty byte sequence `b`, after
`XamLoaderSetLaunchData(b)` the size query succeeds storing `len(b)` and
`XamLoaderGetLaunchData` into a buffer of capacity at least `len(b)`
succeeds reproducing `b` exactly; before any set call both getters return
`X_ERROR_NOT_FOUND`, and setting the empty sequence leaves the getters
returning `X_ERROR_NOT_FOUND` as well. -/
theorem launch_data_roundtrip (st : LoaderData) (b : List Nat) (hb : b ≠ []) :
    xamLoaderGetLaunchDataSize true (xamLoaderSetLaunchData st b).1
        = (X_ERROR_SUCCESS, some b.length)
  ∧ (∀ cap, b.length ≤ cap →
      xamLoaderGetLaunchData (xamLoaderSetLaunchData st b).1 cap
        = (X_ERROR_SUCCESS, b))
  ∧ (xamLoaderGetLaunchDataSize true LoaderData.initial).1 = X_ERROR_NOT_FOUND
  ∧ (∀ cap, (xamLoaderGetLaunchData LoaderData.initial cap).1 = X_ERROR_NOT_FOUND)
  ∧ (xamLoaderGetLaunchDataSize true (xamLoaderSetLaunchData st []).1).1
      = X_ERROR_NOT_FOUND := by
  have hlen : b.length ≠ 0 := fun h => hb (List.length_eq_zero.mp h)
  refine ⟨?_, ?_, rfl, fun cap => rfl, rfl⟩
  · simp [xamLoaderGetLaunchDataSize, xamLoaderSetLaunchData, hlen]
  · intro cap hcap
    simp [xamLoaderGetLaunchData, xamLoaderSetLaunchData, hlen,
      Nat.min_eq_left hcap, List.take_length]

/-- C7 witness: the round trip evaluated on the bytes `[7, 8, 9]` with a
capacity-5 destination. -/
theorem launch_data_roundtrip_witness :
    xamLoaderGetLaunchDataSize true
        (xamLoaderSetLaunchData LoaderData.initial [7, 8, 9]).1
      = (X_ERROR_SUCCESS, some 3)
  ∧ xamLoaderGetLaunchData
        (xamLoaderSetLaunchData LoaderData.initial [7, 8, 9]).1 5
      = (X_ERROR_SUCCESS, [7, 8, 9]) := by
  have h := launch_data_roundtrip LoaderData.initial [7, 8, 9] (by decide)
  exact ⟨h.1, h.2.1 5 (by decide)⟩

/-- C4: evaluation at the failing inputs.  `keXamBuildResourceLocator`
with capacity 2 and a 5-unit source writes at unit indices 0, 1 and 2 —
the unconditional terminator lands at index `min(C, L) = 2`, one unit
past the declared capacity (valid indices are 0 and 1).
`XamFormatDateString` with capacity 10 and the 10-unit date string hands
`copy_and_swap` an element count of 20 (a byte count), copying twice
`min(C, L)` units, while the sibling `XamFormatTimeString` copies exactly
`min(C, L)`. -/
theorem marshaling_capacity_violations :
    (keXamBuildResourceLocator_writes [0x66, 0x69, 0x6C, 0x65, 0x3A] 2).map
        Prod.fst = [0, 1, 2]
  ∧ xamFormatDateString_copy_units 10 10 = 20
  ∧ xamFormatTimeString_copy_units 10 10 = 10 := by
  decide

end XamInfo
